import Mathlib

/-!
Verification development for the tide-tracker service (`src/index.ts`).

The logical core of the repository is a set of pure normalization
functions over upstream JSON records (tide predictions, wind samples,
station metadata) together with per-entrypoint handler logic.  This file
embeds those functions shallowly in Lean:

* JavaScript numbers are modelled by `JsNum`: either the not-a-number
  value or an exact rational (floating-point rounding is immaterial to
  every property proved here; what matters is totality, NaN propagation
  and order comparisons on the small decimal literals involved).
* `parseFloat` / `parseInt` model the JS builtins' prefix-scanning
  semantics: skip leading whitespace, optional sign, then the longest
  numeric prefix; no digits at all yields NaN instead of an error.
* JSON objects become structures with `Option` fields for possibly
  absent members; JS `null`/`undefined` results become `Option.none`.
* The upstream HTTP fetches become `Except String` arguments to the
  handler functions: `Except.error` models a rejected fetch promise,
  and a handler returning `Except.error` models the one case in which
  the exception escapes the handler (the required tide fetch).
-/

namespace TideTracker

/-- A JavaScript number: NaN or an exact rational value. -/
inductive JsNum where
  | nan : JsNum
  | num : Rat → JsNum
deriving DecidableEq, Repr

/-- Decimal digit test, as the JS numeric scanners use it. -/
def isDigitChar (c : Char) : Bool := '0' ≤ c && c ≤ '9'

/-- Whitespace skipped by the JS numeric parsers. -/
def isSpaceChar (c : Char) : Bool := c == ' ' || c == '\t' || c == '\n' || c == '\r'

/-- Value of a list of decimal digits. -/
def digitsToNat (ds : List Char) : Nat :=
  ds.foldl (fun acc c => acc * 10 + (c.toNat - '0'.toNat)) 0

/-- Consume an optional leading sign; `true` means negative. -/
def parseSign : List Char → Bool × List Char
  | '-' :: cs => (true, cs)
  | '+' :: cs => (false, cs)
  | cs => (false, cs)

/-- Exponent part of a JS float literal: `e`/`E`, optional sign, digits.
A missing or digit-less exponent contributes `0` (JS ignores it). -/
def parseExpAfter (cs : List Char) : Int :=
  match cs with
  | c :: rest =>
    if c == 'e' || c == 'E' then
      let sr := parseSign rest
      let ds := sr.2.takeWhile isDigitChar
      if ds.isEmpty then 0
      else if sr.1 then -(digitsToNat ds : Int) else (digitsToNat ds : Int)
    else 0
  | [] => 0

/-- Fraction part of a JS float literal: if the remaining input starts
with a dot, the digits after it (and what follows them); otherwise no
fraction digits and the input unchanged. -/
def fracPart (cs : List Char) : List Char × List Char :=
  match cs with
  | c :: rest => if c == '.' then (rest.takeWhile isDigitChar, rest.dropWhile isDigitChar)
                 else ([], c :: rest)
  | [] => ([], [])

/-- The JS `parseFloat` builtin on a character list: skip whitespace,
optional sign, integer digits, optional fraction, optional exponent.
If neither integer nor fraction digits are present the result is NaN. -/
def parseFloatFrom (cs0 : List Char) : JsNum :=
  let cs := cs0.dropWhile isSpaceChar
  let sr := parseSign cs
  let ints := sr.2.takeWhile isDigitChar
  let fr := fracPart (sr.2.dropWhile isDigitChar)
  if ints.isEmpty && fr.1.isEmpty then JsNum.nan
  else
    let e := parseExpAfter fr.2
    let mant : Rat := (digitsToNat ints : Rat) + (digitsToNat fr.1 : Rat) / ((10 : Rat) ^ fr.1.length)
    let v := mant * (10 : Rat) ^ e
    JsNum.num (if sr.1 then -v else v)

/-- The JS `parseFloat` builtin (modelled over exact rationals). -/
def parseFloat (s : String) : JsNum := parseFloatFrom s.data

/-- Hexadecimal digit test (for the `0x` auto-detection of `parseInt`). -/
def isHexDigitChar (c : Char) : Bool :=
  isDigitChar c || ('a' ≤ c && c ≤ 'f') || ('A' ≤ c && c ≤ 'F')

/-- Value of one hexadecimal digit. -/
def hexVal (c : Char) : Nat :=
  if isDigitChar c then c.toNat - '0'.toNat
  else if 'a' ≤ c && c ≤ 'f' then c.toNat - 'a'.toNat + 10
  else c.toNat - 'A'.toNat + 10

/-- Value of a list of hexadecimal digits. -/
def hexToNat (ds : List Char) : Nat := ds.foldl (fun acc c => acc * 16 + hexVal c) 0

/-- Decimal branch of `parseInt`: longest digit prefix, NaN if empty. -/
def decimalIntResult (neg : Bool) (cs : List Char) : JsNum :=
  let ds := cs.takeWhile isDigitChar
  if ds.isEmpty then JsNum.nan
  else JsNum.num (if neg then -(digitsToNat ds : Rat) else (digitsToNat ds : Rat))

/-- The JS `parseInt` builtin with no radix argument: skip whitespace,
optional sign, `0x`/`0X` switches to hexadecimal, otherwise the longest
decimal digit prefix; no digits yields NaN. -/
def parseIntFrom (cs0 : List Char) : JsNum :=
  let cs := cs0.dropWhile isSpaceChar
  let sr := parseSign cs
  match sr.2 with
  | '0' :: x :: rest =>
    if x == 'x' || x == 'X' then
      let ds := rest.takeWhile isHexDigitChar
      if ds.isEmpty then JsNum.nan
      else JsNum.num (if sr.1 then -(hexToNat ds : Rat) else (hexToNat ds : Rat))
    else decimalIntResult sr.1 sr.2
  | _ => decimalIntResult sr.1 sr.2

/-- The JS `parseInt` builtin (modelled over exact rationals). -/
def parseInt (s : String) : JsNum := parseIntFrom s.data

/-- Does the character list (already stripped of whitespace and sign)
start a numeric literal: a digit, or a dot followed by a digit? -/
def numericStart (cs : List Char) : Bool :=
  match cs with
  | [] => false
  | c :: rest =>
    if c == '.' then
      match rest with
      | d :: _ => isDigitChar d
      | [] => false
    else isDigitChar c

/-- A string is non-numeric for `parseFloat` when, after skipping
whitespace and an optional sign, no digits can be scanned at all. -/
def nonNumericStr (s : String) : Bool :=
  !(numericStart (parseSign (s.data.dropWhile isSpaceChar)).2)

/-- JS `a > b` where `a` is a number that may be NaN: NaN compares false. -/
def jsGtNum (a : JsNum) (b : Rat) : Bool :=
  match a with
  | JsNum.nan => false
  | JsNum.num x => decide (b < x)

/-- JS `v || d` for a possibly-absent string `v`: absent and the empty
string are falsy, so both fall back to the default. -/
def jsOrStr (v : Option String) (d : String) : String :=
  match v with
  | some s => if s = "" then d else s
  | none => d

/-- One raw upstream tide prediction record `{t, v, type}`. -/
structure RawTide where
  t : String
  v : String
  type : String
deriving DecidableEq, Repr

/-- One normalized tide prediction, as built by `parseTides`. -/
structure TidePrediction where
  time : String
  height : JsNum
  type : String
deriving DecidableEq, Repr

/-- One raw upstream wind sample `{t, s, d, dr, g}`. -/
structure RawWind where
  t : String
  s : String
  d : String
  dr : String
  g : String
deriving DecidableEq, Repr

/-- One normalized wind reading, as built by `parseWind`. -/
structure WindReading where
  time : String
  speed : JsNum
  direction : JsNum
  directionLabel : String
  gust : JsNum
deriving DecidableEq, Repr

/-- `parseTides` from `src/index.ts`: map each raw record to a
normalized prediction; height via `parseFloat`, type code `H` to
`high`, `L` to `low`, anything else to `reading`. -/
def parseTides (predictions : List RawTide) : List TidePrediction :=
  predictions.map (fun p =>
    { time := p.t,
      height := parseFloat p.v,
      type := if p.type = "H" then "high" else if p.type = "L" then "low" else "reading" })

/-- `parseWind` from `src/index.ts`: `null` when the series is absent or
empty, otherwise a reading built from `data[data.length - 1]`. -/
def parseWind (data : Option (List RawWind)) : Option WindReading :=
  match data with
  | none => none
  | some l =>
    if h : l.length = 0 then none
    else
      let latest := l.get ⟨l.length - 1, by omega⟩
      some { time := latest.t, speed := parseFloat latest.s, direction := parseInt latest.d,
             directionLabel := latest.dr, gust := parseFloat latest.g }

/-- Date key of a prediction: `time.split(' ')[0]`, i.e. the prefix of
the time string before its first space (the whole string if none). -/
def dateKey (s : String) : String :=
  String.mk (s.data.takeWhile (fun c => c != ' '))

/-- Key of a normalized prediction, as the grouping loops derive it. -/
def tideKey (t : TidePrediction) : String := dateKey t.time

/-- One iteration of the grouping loop in the forecast and report
handlers: look the date key up in the accumulated record, append to the
existing bucket, or create a fresh singleton bucket at the end.  The
association list keeps JS object string-key insertion order. -/
def bucketStep (acc : List (String × List TidePrediction)) (tide : TidePrediction) :
    List (String × List TidePrediction) :=
  let date := tideKey tide
  if acc.any (fun p => p.1 == date) then
    acc.map (fun p => if p.1 == date then (p.1, p.2 ++ [tide]) else p)
  else
    acc ++ [(date, [tide])]

/-- The `byDate` grouping of the forecast and report handlers. -/
def bucketByDate (tides : List TidePrediction) : List (String × List TidePrediction) :=
  tides.foldl bucketStep []

/-- Replace the first space by `T`, as `time.replace(' ', 'T')` does
(JS `replace` with a string pattern rewrites only the first match). -/
def replaceFirstSpaceT : List Char → List Char
  | [] => []
  | c :: rest => if c == ' ' then 'T' :: rest else c :: replaceFirstSpaceT rest

/-- Timestamp value of a date for comparison purposes: strictly
monotone in the lexicographic order of its components, so comparisons
agree with comparisons of the JS `Date` objects built from these
strings. -/
def dateValue (y mo d h mi : Nat) : Nat :=
  (((y * 13 + mo) * 32 + d) * 24 + h) * 60 + mi

/-- `new Date(s)` on the `YYYY-MM-DDTHH:MM` strings this code builds:
the timestamp value, or `none` (an invalid date) for any other shape. -/
def parseDT (s : String) : Option Nat :=
  match s.data with
  | [y1, y2, y3, y4, s1, m1, m2, s2, d1, d2, s3, h1, h2, s4, n1, n2] =>
    if isDigitChar y1 && isDigitChar y2 && isDigitChar y3 && isDigitChar y4 &&
       s1 == '-' && isDigitChar m1 && isDigitChar m2 && s2 == '-' &&
       isDigitChar d1 && isDigitChar d2 && s3 == 'T' &&
       isDigitChar h1 && isDigitChar h2 && s4 == ':' &&
       isDigitChar n1 && isDigitChar n2 then
      some (dateValue (digitsToNat [y1, y2, y3, y4]) (digitsToNat [m1, m2])
        (digitsToNat [d1, d2]) (digitsToNat [h1, h2]) (digitsToNat [n1, n2]))
    else none
  | _ => none

/-- The filter predicate of the report handler's `upcoming` list:
`new Date(t.time.replace(' ', 'T')) > now`.  An invalid date is NaN and
every comparison with NaN is false. -/
def isUpcoming (now : Nat) (t : TidePrediction) : Bool :=
  match parseDT (String.mk (replaceFirstSpaceT t.time.data)) with
  | some v => decide (now < v)
  | none => false

/-- `upcoming[0] || null` over the filtered prediction list: the first
prediction strictly later than `now`, if any (objects are truthy, so
`|| null` only converts the out-of-bounds `undefined`). -/
def nextUpcoming (l : List TidePrediction) (now : Nat) : Option TidePrediction :=
  (l.filter (isUpcoming now)).head?

/-- The `windConditions` expression of the report handler:
`wind ? (wind.speed > 15 ? 'windy' : wind.speed > 8 ? 'moderate' : 'calm') : 'unknown'`. -/
def classifyWind (wind : Option WindReading) : String :=
  match wind with
  | none => "unknown"
  | some w => if jsGtNum w.speed 15 then "windy" else if jsGtNum w.speed 8 then "moderate" else "calm"

/-- An upstream-reported error payload (`data.error`). -/
structure UpstreamError where
  message : String
deriving DecidableEq, Repr

/-- A fetched tide-prediction response body. -/
structure TidesResponse where
  error : Option UpstreamError
  predictions : Option (List RawTide)
deriving DecidableEq, Repr

/-- A fetched wind response body (`{data}`). -/
structure WindResponse where
  data : Option (List RawWind)
deriving DecidableEq, Repr

/-- One raw station metadata object; field values are passed through
verbatim, so they are modelled as opaque optional strings. -/
structure StationRec where
  name : Option String
  lat : Option String
  lng : Option String
  state : Option String
  timezone : Option String
  tideType : Option String
deriving DecidableEq, Repr

/-- A fetched station-metadata response body (`{stations}`). -/
structure StationsResponse where
  stations : Option (List StationRec)
deriving DecidableEq, Repr

/-- Output of the `tides` entrypoint (the fields the error policy is
about; constant strings and the wall-clock timestamp are omitted). -/
inductive TidesOutput where
  | err (message : String) (stationId : String)
  | ok (stationId : String) (tides : List TidePrediction)
deriving DecidableEq, Repr

/-- Output of the `forecast` entrypoint. -/
inductive ForecastOutput where
  | err (message : String) (stationId : String)
  | ok (stationId : String) (days : Nat) (forecast : List (String × List TidePrediction))
deriving DecidableEq, Repr

/-- The `tides` entrypoint handler after a successful fetch: an error
payload becomes `{error: message, stationId}`, otherwise the parsed
tides are returned. -/
def tidesHandler (stationId : String) (data : TidesResponse) : TidesOutput :=
  match data.error with
  | some e => TidesOutput.err e.message stationId
  | none => TidesOutput.ok stationId (parseTides (data.predictions.getD []))

/-- The `forecast` entrypoint handler after a successful fetch. -/
def forecastHandler (stationId : String) (days : Nat) (data : TidesResponse) : ForecastOutput :=
  match data.error with
  | some e => ForecastOutput.err e.message stationId
  | none => ForecastOutput.ok stationId days (bucketByDate (parseTides (data.predictions.getD [])))

/-- Station block of the `conditions` output. -/
structure CondStation where
  id : String
  name : String
  lat : Option String
  lng : Option String
  state : Option String
  timezone : Option String
deriving DecidableEq, Repr

/-- Output of the `conditions` entrypoint. -/
structure CondOutput where
  station : CondStation
  tides : List TidePrediction
  wind : Option WindReading
deriving DecidableEq, Repr

/-- The `conditions` entrypoint handler.  The three fetch arguments
model the `Promise.all` fan-out: the wind and station fetches carry
`.catch` fallbacks (`{data: []}` and `{stations: []}`), the tide fetch
does not, so its failure rejects the whole handler. -/
def conditionsHandler (sid : String) (tidesF : Except String TidesResponse)
    (windF : Except String WindResponse) (stationF : Except String StationsResponse) :
    Except String CondOutput :=
  match tidesF with
  | Except.error e => Except.error e
  | Except.ok tidesData =>
    let windData : WindResponse := match windF with
      | Except.ok w => w
      | Except.error _ => { data := some [] }
    let stationData : StationsResponse := match stationF with
      | Except.ok s => s
      | Except.error _ => { stations := some [] }
    let station : Option StationRec := stationData.stations.bind List.head?
    let tides := if tidesData.error.isSome then [] else parseTides (tidesData.predictions.getD [])
    let wind := parseWind windData.data
    Except.ok
      { station :=
          { id := sid,
            name := jsOrStr (station.bind (fun s => s.name)) "Unknown",
            lat := station.bind (fun s => s.lat),
            lng := station.bind (fun s => s.lng),
            state := station.bind (fun s => s.state),
            timezone := station.bind (fun s => s.timezone) },
        tides := tides,
        wind := wind }

/-- Station block of the `report` output. -/
structure ReportStation where
  id : String
  name : String
  lat : Option String
  lng : Option String
  state : Option String
  timezone : Option String
  tideType : Option String
deriving DecidableEq, Repr

/-- Output of the `report` entrypoint. -/
structure ReportOutput where
  station : ReportStation
  todayTides : List TidePrediction
  nextTide : Option TidePrediction
  fiveDayForecast : List (String × List TidePrediction)
  currentWind : Option WindReading
  highTidesPerDay : Nat
  lowTidesPerDay : Nat
  windConditions : String
deriving DecidableEq, Repr

/-- The `report` entrypoint handler.  Same fetch model as
`conditionsHandler`, with two required tide fetches (today and the
five-day range); `Math.round` of an array length is the length. -/
def reportHandler (sid : String) (now : Nat)
    (todayF forecastF : Except String TidesResponse)
    (windF : Except String WindResponse) (stationF : Except String StationsResponse) :
    Except String ReportOutput :=
  match todayF with
  | Except.error e => Except.error e
  | Except.ok todayData =>
    match forecastF with
    | Except.error e => Except.error e
    | Except.ok forecastData =>
      let windData : WindResponse := match windF with
        | Except.ok w => w
        | Except.error _ => { data := some [] }
      let stationData : StationsResponse := match stationF with
        | Except.ok s => s
        | Except.error _ => { stations := some [] }
      let station : Option StationRec := stationData.stations.bind List.head?
      let todayParsed :=
        if todayData.error.isSome then [] else parseTides (todayData.predictions.getD [])
      let forecastParsed :=
        if forecastData.error.isSome then [] else parseTides (forecastData.predictions.getD [])
      let wind := parseWind windData.data
      Except.ok
        { station :=
            { id := sid,
              name := jsOrStr (station.bind (fun s => s.name)) "Unknown",
              lat := station.bind (fun s => s.lat),
              lng := station.bind (fun s => s.lng),
              state := station.bind (fun s => s.state),
              timezone := station.bind (fun s => s.timezone),
              tideType := station.bind (fun s => s.tideType) },
          todayTides := todayParsed,
          nextTide := nextUpcoming todayParsed now,
          fiveDayForecast := bucketByDate forecastParsed,
          currentWind := wind,
          highTidesPerDay := (todayParsed.filter (fun t => t.type == "high")).length,
          lowTidesPerDay := (todayParsed.filter (fun t => t.type == "low")).length,
          windConditions := classifyWind wind }

/-- Validated input of the `search` entrypoint. -/
structure SearchInput where
  state : String
  limit : Rat
deriving DecidableEq, Repr

/-- The zod schema of the `search` entrypoint:
`z.object({state: z.string().length(2), limit: z.number().optional().default(20)})`.
The state must be exactly two characters; the limit is any number,
defaulting to 20 when omitted. -/
def searchValidate (state : String) (limit : Option Rat) : Option SearchInput :=
  if state.length = 2 then some { state := state, limit := limit.getD 20 } else none

/-- First-occurrence deduplication: keep each string the first time it
appears, drop every later duplicate. -/
def dedupKeepFirst : List String → List String
  | [] => []
  | a :: as => a :: dedupKeepFirst (as.filter (fun x => x != a))
termination_by l => l.length
decreasing_by
  simp only [List.length_cons]
  exact Nat.lt_succ_of_le (List.length_filter_le _ _)

/-- The shape `bucketByDate` is proved to have: one bucket per distinct
date key, keyed in first-occurrence order, holding the in-order filter
of the input at that key. -/
def bucketSpec (l : List TidePrediction) : List (String × List TidePrediction) :=
  (dedupKeepFirst (l.map tideKey)).map (fun k => (k, l.filter (fun t => tideKey t == k)))

/-- Sample normalized prediction (first spec example record). -/
def demoT1 : TidePrediction := { time := "2024-01-01 05:00", height := JsNum.num 1, type := "high" }

/-- Sample normalized prediction (second spec example record). -/
def demoT2 : TidePrediction := { time := "2024-01-01 17:30", height := JsNum.num 2, type := "low" }

/-- Sample normalized prediction on the following date. -/
def demoT3 : TidePrediction := { time := "2024-01-02 06:10", height := JsNum.num 3, type := "high" }

/-- Sample prediction list spanning two dates, in ascending time order. -/
def demoTides : List TidePrediction := [demoT1, demoT2, demoT3]

/-- Sample raw prediction records: one well-formed, one with a
non-numeric height and an unknown type code. -/
def demoRaw : List RawTide :=
  [{ t := "2024-01-01 05:00", v := "1.5", type := "H" },
   { t := "2024-01-01 17:30", v := "N/A", type := "X" }]

/-- Sample raw wind record. -/
def demoWind : RawWind := { t := "2024-01-01 11:54", s := "12.0", d := "190", dr := "S", g := "15.1" }

/-! ## Characterization of the date-bucketing loop -/

theorem mem_dedupKeepFirst (l : List String) : ∀ a, a ∈ dedupKeepFirst l ↔ a ∈ l := by
  induction l using dedupKeepFirst.induct with
  | case1 => intro a; simp [dedupKeepFirst]
  | case2 b as ih =>
    intro a
    rw [dedupKeepFirst]
    simp only [List.mem_cons, ih, List.mem_filter, bne_iff_ne, ne_eq]
    by_cases hab : a = b <;> simp [hab]

theorem nodup_dedupKeepFirst (l : List String) : (dedupKeepFirst l).Nodup := by
  induction l using dedupKeepFirst.induct with
  | case1 => simp [dedupKeepFirst]
  | case2 b as ih =>
    rw [dedupKeepFirst]
    refine List.nodup_cons.mpr ⟨?_, ih⟩
    rw [mem_dedupKeepFirst]
    simp [List.mem_filter]

theorem dedupKeepFirst_snoc (l : List String) :
    ∀ x, dedupKeepFirst (l ++ [x]) =
      if x ∈ l then dedupKeepFirst l else dedupKeepFirst l ++ [x] := by
  induction l using dedupKeepFirst.induct with
  | case1 => intro x; simp [dedupKeepFirst]
  | case2 b as ih =>
    intro x
    rw [List.cons_append, dedupKeepFirst, List.filter_append]
    by_cases hxb : x = b
    · subst hxb
      have hfx : List.filter (fun y => y != x) [x] = [] := by simp
      rw [hfx, List.append_nil, if_pos (List.mem_cons_self x as), dedupKeepFirst]
    · have hfx : List.filter (fun y => y != b) [x] = [x] := by simp [hxb]
      rw [hfx, ih x]
      have hmem : x ∈ List.filter (fun y => y != b) as ↔ x ∈ as := by
        simp [List.mem_filter, hxb]
      by_cases hxa : x ∈ as
      · rw [if_pos (hmem.mpr hxa), if_pos (List.mem_cons_of_mem b hxa), dedupKeepFirst]
      · rw [if_neg (fun h => hxa (hmem.mp h)),
          if_neg (by simp [hxa, hxb]), dedupKeepFirst, List.cons_append]

theorem bucketByDate_snoc (l : List TidePrediction) (t : TidePrediction) :
    bucketByDate (l ++ [t]) = bucketStep (bucketByDate l) t := by
  simp [bucketByDate, List.foldl_append]

theorem bucketByDate_eq_spec (l : List TidePrediction) : bucketByDate l = bucketSpec l := by
  induction l using List.reverseRecOn with
  | nil => simp [bucketByDate, bucketSpec, dedupKeepFirst]
  | append_singleton l t ih =>
    rw [bucketByDate_snoc, ih]
    unfold bucketSpec bucketStep
    by_cases hk : tideKey t ∈ l.map tideKey
    · have hany : ((dedupKeepFirst (l.map tideKey)).map
          (fun k => (k, l.filter (fun u => tideKey u == k)))).any
            (fun p => p.1 == tideKey t) = true := by
        rw [List.any_eq_true]
        exact ⟨(tideKey t, l.filter (fun u => tideKey u == tideKey t)),
          List.mem_map.mpr ⟨tideKey t, (mem_dedupKeepFirst _ _).mpr hk, rfl⟩, by simp⟩
      rw [if_pos hany, List.map_map, List.map_append, List.map_cons, List.map_nil,
        dedupKeepFirst_snoc, if_pos hk]
      apply List.map_congr_left
      intro k hkmem
      simp only [Function.comp_apply]
      by_cases hkt : k = tideKey t
      · subst hkt
        simp [List.filter_append]
      · have h1 : (k == tideKey t) = false := by simp [hkt]
        have h2 : (tideKey t == k) = false := by simp [Ne.symm hkt]
        simp [List.filter_append, h1, h2]
    · have hany : ((dedupKeepFirst (l.map tideKey)).map
          (fun k => (k, l.filter (fun u => tideKey u == k)))).any
            (fun p => p.1 == tideKey t) = false := by
        rw [List.any_eq_false]
        intro p hp
        rcases List.mem_map.mp hp with ⟨k2, hk2, rfl⟩
        simp only [beq_iff_eq]
        rintro rfl
        exact hk ((mem_dedupKeepFirst _ _).mp hk2)
      rw [if_neg (by simp [hany]), List.map_append, List.map_cons, List.map_nil,
        dedupKeepFirst_snoc, if_neg hk, List.map_append]
      congr 1
      · apply List.map_congr_left
        intro k hkmem
        have hkl : k ∈ l.map tideKey := (mem_dedupKeepFirst _ _).mp hkmem
        have h2 : (tideKey t == k) = false := by
          simp only [beq_eq_false_iff_ne, ne_eq]
          rintro rfl
          exact hk hkl
        simp [List.filter_append, h2]
      · have hnil : l.filter (fun u => tideKey u == tideKey t) = [] := by
          rw [List.filter_eq_nil_iff]
          intro u hu
          simp only [beq_iff_eq]
          intro he
          exact hk (List.mem_map.mpr ⟨u, hu, he⟩)
        simp [List.filter_append, hnil]

theorem join_filters_perm (ks : List String) :
    ∀ l : List TidePrediction, ks.Nodup → (∀ t ∈ l, tideKey t ∈ ks) →
      ((ks.map (fun k => l.filter (fun t => tideKey t == k))).flatten).Perm l := by
  induction ks with
  | nil =>
    intro l _ hcov
    cases l with
    | nil => simp
    | cons a l => exact absurd (hcov a (List.mem_cons_self a l)) (List.not_mem_nil _)
  | cons k ks ih =>
    intro l hnd hcov
    rw [List.map_cons, List.flatten_cons]
    have hknotin : k ∉ ks := (List.nodup_cons.mp hnd).1
    have hstep : ∀ k2 ∈ ks, l.filter (fun t => tideKey t == k2)
        = (l.filter (fun t => !(tideKey t == k))).filter (fun t => tideKey t == k2) := by
      intro k2 hk2
      rw [List.filter_filter]
      apply List.filter_congr
      intro t ht
      by_cases h : tideKey t = k2
      · have hk2k : k2 ≠ k := fun he => hknotin (he ▸ hk2)
        simp [h, hk2k]
      · simp [h]
    have hcov2 : ∀ t ∈ l.filter (fun t => !(tideKey t == k)), tideKey t ∈ ks := by
      intro t ht
      rcases List.mem_filter.mp ht with ⟨htl, hne⟩
      rcases List.mem_cons.mp (hcov t htl) with h | h
      · exact absurd (by simp [h] : (tideKey t == k) = true) (by simpa using hne)
      · exact h
    have ihl := ih (l.filter (fun t => !(tideKey t == k))) (List.nodup_cons.mp hnd).2 hcov2
    have hmapeq : ks.map (fun k2 => l.filter (fun t => tideKey t == k2))
        = ks.map (fun k2 => (l.filter (fun t => !(tideKey t == k))).filter
            (fun t => tideKey t == k2)) := List.map_congr_left hstep
    rw [hmapeq]
    exact (List.Perm.append_left _ ihl).trans (List.filter_append_perm _ l)

theorem bucketByDate_flatten_perm (l : List TidePrediction) :
    (((bucketByDate l).map Prod.snd).flatten).Perm l := by
  rw [bucketByDate_eq_spec, bucketSpec, List.map_map]
  have hcomp : (Prod.snd ∘ fun k => (k, l.filter (fun t => tideKey t == k)))
      = fun k => l.filter (fun t => tideKey t == k) := rfl
  rw [hcomp]
  exact join_filters_perm _ l (nodup_dedupKeepFirst _)
    (fun t ht => (mem_dedupKeepFirst _ _).mpr (List.mem_map.mpr ⟨t, ht, rfl⟩))

theorem buckets_containing_eq_one (l : List TidePrediction) (t : TidePrediction)
    (ht : t ∈ l) : (bucketByDate l).countP (fun p => decide (t ∈ p.2)) = 1 := by
  rw [bucketByDate_eq_spec, bucketSpec, List.countP_map]
  have hcong : ∀ k ∈ dedupKeepFirst (l.map tideKey),
      ((fun p : String × List TidePrediction => decide (t ∈ p.2)) ∘
        (fun k => (k, l.filter (fun u => tideKey u == k)))) k = true ↔ (k == tideKey t) = true := by
    intro k hk
    simp only [Function.comp_apply, decide_eq_true_eq, List.mem_filter, beq_iff_eq]
    constructor
    · rintro ⟨_, he⟩
      exact he.symm
    · rintro rfl
      exact ⟨ht, rfl⟩
  rw [List.countP_congr hcong, ← List.count_eq_countP]
  exact List.count_eq_one_of_mem (nodup_dedupKeepFirst _)
    ((mem_dedupKeepFirst _ _).mpr (List.mem_map.mpr ⟨t, ht, rfl⟩))

/-! ## Helper lemmas: numeric parsing, last element, first upcoming -/

theorem parseFloat_eq_nan_iff (s : String) :
    parseFloat s = JsNum.nan ↔ nonNumericStr s = true := by
  simp only [parseFloat, parseFloatFrom, nonNumericStr]
  generalize parseSign (s.data.dropWhile isSpaceChar) = sr
  obtain ⟨sg, cs1⟩ := sr
  have hdotdig : isDigitChar '.' = false := by decide
  cases cs1 with
  | nil => simp [fracPart, numericStart]
  | cons c rest =>
    by_cases hdot : c = '.'
    · subst hdot
      cases rest with
      | nil =>
        simp [fracPart, numericStart, List.takeWhile_cons, List.dropWhile_cons, hdotdig]
      | cons d rest2 =>
        by_cases hd : isDigitChar d = true
        · simp [fracPart, numericStart, List.takeWhile_cons, List.dropWhile_cons, hdotdig, hd]
        · simp [fracPart, numericStart, List.takeWhile_cons, List.dropWhile_cons, hdotdig, hd]
    · by_cases hd : isDigitChar c = true
      · simp [fracPart, numericStart, List.takeWhile_cons, List.dropWhile_cons, hdot, hd]
      · simp [fracPart, numericStart, List.takeWhile_cons, List.dropWhile_cons, hdot, hd]

theorem parseWind_eq_getLast (l : List RawWind) (h : l ≠ []) :
    parseWind (some l) = some { time := (l.getLast h).t,
                                speed := parseFloat (l.getLast h).s,
                                direction := parseInt (l.getLast h).d,
                                directionLabel := (l.getLast h).dr,
                                gust := parseFloat (l.getLast h).g } := by
  simp only [parseWind]
  rw [dif_neg (fun hl => h (List.length_eq_zero.mp hl))]
  simp only [List.getLast_eq_get]

theorem nextUpcoming_none_iff (l : List TidePrediction) (now : Nat) :
    nextUpcoming l now = none ↔ ∀ t ∈ l, isUpcoming now t = false := by
  unfold nextUpcoming
  rw [List.head?_eq_none_iff, List.filter_eq_nil_iff]
  simp [Bool.not_eq_true]

theorem nextUpcoming_some_iff (l : List TidePrediction) (now : Nat) (t : TidePrediction) :
    nextUpcoming l now = some t ↔
      isUpcoming now t = true ∧
        ∃ l₁ l₂, l = l₁ ++ t :: l₂ ∧ ∀ u ∈ l₁, isUpcoming now u = false := by
  induction l with
  | nil =>
    simp only [nextUpcoming, List.filter_nil, List.head?_nil]
    constructor
    · rintro h
      exact absurd h (by simp)
    · rintro ⟨_, l₁, l₂, heq, _⟩
      exact absurd heq.symm (List.append_ne_nil_of_right_ne_nil l₁ (List.cons_ne_nil t l₂))
  | cons a l ih =>
    by_cases ha : isUpcoming now a = true
    · have hstep : nextUpcoming (a :: l) now = some a := by
        simp [nextUpcoming, List.filter_cons, ha]
      rw [hstep]
      constructor
      · intro heq
        injection heq with heq2
        subst heq2
        exact ⟨ha, [], l, rfl, by simp⟩
      · rintro ⟨ht, l₁, l₂, heq, hall⟩
        cases l₁ with
        | nil =>
          rw [List.nil_append] at heq
          injection heq with h1 h2
          rw [h1]
        | cons b l₁x =>
          rw [List.cons_append] at heq
          injection heq with h1 h2
          subst h1
          exact absurd (hall a (List.mem_cons_self a l₁x)) (by simp [ha])
    · have hstep : nextUpcoming (a :: l) now = nextUpcoming l now := by
        simp [nextUpcoming, List.filter_cons, ha]
      have hat : isUpcoming now a = false := by simpa using ha
      rw [hstep, ih]
      constructor
      · rintro ⟨ht, l₁, l₂, heq, hall⟩
        refine ⟨ht, a :: l₁, l₂, by rw [heq, List.cons_append], ?_⟩
        intro u hu
        rcases List.mem_cons.mp hu with rfl | hu2
        · exact hat
        · exact hall u hu2
      · rintro ⟨ht, l₁, l₂, heq, hall⟩
        cases l₁ with
        | nil =>
          rw [List.nil_append] at heq
          injection heq with h1 h2
          subst h1
          exact absurd ht (by simp [hat])
        | cons b l₁x =>
          rw [List.cons_append] at heq
          injection heq with h1 h2
          subst h1
          exact ⟨ht, l₁x, l₂, h2, fun u hu => hall u (List.mem_cons_of_mem _ hu)⟩

theorem isUpcoming_iff (now : Nat) (t : TidePrediction) :
    isUpcoming now t = true ↔
      ∃ v, parseDT (String.mk (replaceFirstSpaceT t.time.data)) = some v ∧ now < v := by
  unfold isUpcoming
  cases h : parseDT (String.mk (replaceFirstSpaceT t.time.data)) with
  | none => simp
  | some v => simp

/-! ## Claim theorems -/

/-- Claim C1: for every sequence of TidePrediction records, bucketByDate
groups each prediction under the key obtained by taking the substring of
its time field before the first space, creates a bucket on the key's
first occurrence, and within every date bucket the predictions appear in
the same relative order as in the input sequence.  Formally: the key is
the takeWhile-prefix of `time` before the first space; every bucket is
exactly the in-order filter of the input at its key (hence preserves
relative order, and is a sublist of the input); and every input
prediction's key owns a bucket containing it. -/
theorem bucketByDate_grouping_ordered (l : List TidePrediction) :
    (∀ t : TidePrediction, tideKey t = String.mk (t.time.data.takeWhile (fun c => c != ' '))) ∧
    (∀ p ∈ bucketByDate l, p.2 = l.filter (fun t => tideKey t == p.1)) ∧
    (∀ t ∈ l, (tideKey t, l.filter (fun u => tideKey u == tideKey t)) ∈ bucketByDate l) ∧
    (∀ p ∈ bucketByDate l, p.2.Sublist l) := by
  refine ⟨fun t => rfl, ?_, ?_, ?_⟩
  · intro p hp
    rw [bucketByDate_eq_spec, bucketSpec] at hp
    rcases List.mem_map.mp hp with ⟨k, hk, rfl⟩
    rfl
  · intro t ht
    rw [bucketByDate_eq_spec, bucketSpec]
    exact List.mem_map.mpr ⟨tideKey t,
      (mem_dedupKeepFirst _ _).mpr (List.mem_map.mpr ⟨t, ht, rfl⟩), rfl⟩
  · intro p hp
    rw [bucketByDate_eq_spec, bucketSpec] at hp
    rcases List.mem_map.mp hp with ⟨k, hk, rfl⟩
    exact List.filter_sublist l

/-- Witness for C1 on the spec's three-record example: the 2024-01-01
bucket exists, its key is the prefix before the space, and it holds the
two matching predictions in input order. -/
theorem bucketByDate_grouping_ordered_witness :
    (tideKey demoT1, demoTides.filter (fun u => tideKey u == tideKey demoT1))
        ∈ bucketByDate demoTides ∧
    tideKey demoT1 = "2024-01-01" ∧
    demoTides.filter (fun u => tideKey u == tideKey demoT1) = [demoT1, demoT2] :=
  ⟨(bucketByDate_grouping_ordered demoTides).2.2.1 demoT1 (by decide), by decide, by decide⟩

/-- Claim C2: parseTides returns a sequence of the same length, in the
same order, with exactly one output per input (no filtering); each
output's height is the input's `v` field under the JS float parse, and a
non-numeric height string yields NaN rather than a failure (parseTides
is a total function by construction). -/
theorem parseTides_length_order_total (ps : List RawTide) :
    ((parseTides ps).length = ps.length) ∧
    (∀ i (h : i < ps.length) (hq : i < (parseTides ps).length),
      ((parseTides ps).get ⟨i, hq⟩).time = (ps.get ⟨i, h⟩).t ∧
      ((parseTides ps).get ⟨i, hq⟩).height = parseFloat (ps.get ⟨i, h⟩).v) ∧
    (∀ s, parseFloat s = JsNum.nan ↔ nonNumericStr s = true) := by
  refine ⟨by simp [parseTides], ?_, parseFloat_eq_nan_iff⟩
  intro i h hq
  constructor
  · simp [parseTides]
  · simp [parseTides]

/-- Witness for C2: two raw records produce two outputs; the first
output carries its input's time; the non-numeric height "N/A" parses to
NaN. -/
theorem parseTides_length_order_total_witness :
    (parseTides demoRaw).length = demoRaw.length ∧
    parseFloat "N/A" = JsNum.nan ∧
    ((parseTides demoRaw).get ⟨0, by decide⟩).time = "2024-01-01 05:00" := by
  refine ⟨(parseTides_length_order_total demoRaw).1,
    ((parseTides_length_order_total demoRaw).2.2 "N/A").mpr (by decide), ?_⟩
  rw [((parseTides_length_order_total demoRaw).2.1 0 (by decide) (by decide)).1]
  decide

/-- Claim C3: parseTides maps the record's type code "H" to kind high,
"L" to kind low, and any other value to kind reading. -/
theorem parseTides_kind_mapping (ps : List RawTide) (i : Nat) (h : i < ps.length)
    (hq : i < (parseTides ps).length) :
    ((ps.get ⟨i, h⟩).type = "H" → ((parseTides ps).get ⟨i, hq⟩).type = "high") ∧
    ((ps.get ⟨i, h⟩).type = "L" → ((parseTides ps).get ⟨i, hq⟩).type = "low") ∧
    ((ps.get ⟨i, h⟩).type ≠ "H" → (ps.get ⟨i, h⟩).type ≠ "L" →
      ((parseTides ps).get ⟨i, hq⟩).type = "reading") := by
  refine ⟨fun hH => ?_, fun hL => ?_, fun hnH hnL => ?_⟩
  · rw [List.get_eq_getElem] at hH
    simp [parseTides, hH]
  · rw [List.get_eq_getElem] at hL
    simp [parseTides, hL]
  · rw [List.get_eq_getElem] at hnH hnL
    simp [parseTides, hnH, hnL]

/-- Witness for C3: the "H" record maps to "high", the unknown code "X"
maps to "reading". -/
theorem parseTides_kind_mapping_witness :
    ((parseTides demoRaw).get ⟨0, by decide⟩).type = "high" ∧
    ((parseTides demoRaw).get ⟨1, by decide⟩).type = "reading" :=
  ⟨(parseTides_kind_mapping demoRaw 0 (by decide) (by decide)).1 (by decide),
   (parseTides_kind_mapping demoRaw 1 (by decide) (by decide)).2.2 (by decide) (by decide)⟩

/-- Claim C4: parseWind returns absent when the series is absent or
empty; for every non-empty series it returns a single WindReading built
from exactly the last element, mapping t, s, d, dr, g to time, speed,
direction, directionLabel, gust, with s and g parsed as floats and d as
an integer. -/
theorem parseWind_last_element :
    parseWind none = none ∧ parseWind (some []) = none ∧
    ∀ (l : List RawWind) (h : l ≠ []),
      parseWind (some l) = some { time := (l.getLast h).t,
                                  speed := parseFloat (l.getLast h).s,
                                  direction := parseInt (l.getLast h).d,
                                  directionLabel := (l.getLast h).dr,
                                  gust := parseFloat (l.getLast h).g } :=
  ⟨rfl, rfl, parseWind_eq_getLast⟩

/-- Witness for C4 on a one-element series. -/
theorem parseWind_last_element_witness :
    parseWind (some [demoWind]) = some { time := "2024-01-01 11:54",
                                         speed := parseFloat "12.0",
                                         direction := parseInt "190",
                                         directionLabel := "S",
                                         gust := parseFloat "15.1" } :=
  parseWind_last_element.2.2 [demoWind] (List.cons_ne_nil _ _)

/-- Claim C5: nextUpcoming returns the first prediction in input order
whose time, with its space separator replaced by the date-time
separator, is strictly later than now, and returns absent when no
prediction qualifies.  The third conjunct unfolds the predicate: a
prediction qualifies exactly when its separator-replaced time parses to
a date value strictly greater than now. -/
theorem nextUpcoming_first_strictly_later (l : List TidePrediction) (now : Nat) :
    (nextUpcoming l now = none ↔ ∀ t ∈ l, isUpcoming now t = false) ∧
    (∀ t, nextUpcoming l now = some t ↔
      isUpcoming now t = true ∧
        ∃ l₁ l₂, l = l₁ ++ t :: l₂ ∧ ∀ u ∈ l₁, isUpcoming now u = false) ∧
    (∀ t, isUpcoming now t = true ↔
      ∃ v, parseDT (String.mk (replaceFirstSpaceT t.time.data)) = some v ∧ now < v) :=
  ⟨nextUpcoming_none_iff l now, fun t => nextUpcoming_some_iff l now t,
   fun t => isUpcoming_iff now t⟩

/-- Witness for C5, the spec's example: with now at 2024-01-01 12:00
and predictions at 05:00, 17:30 and next-day 06:10, the 17:30 entry is
returned. -/
theorem nextUpcoming_first_strictly_later_witness :
    nextUpcoming demoTides (dateValue 2024 1 1 12 0) = some demoT2 :=
  ((nextUpcoming_first_strictly_later demoTides (dateValue 2024 1 1 12 0)).2.1 demoT2).mpr
    ⟨by decide, [demoT1], [demoT3], rfl, by decide⟩

/-- Claim C6: classifyWind returns unknown for an absent reading; for a
present reading with numeric speed it returns windy when speed > 15,
otherwise moderate when speed > 8, otherwise calm. -/
theorem classifyWind_thresholds :
    classifyWind none = "unknown" ∧
    ∀ (w : WindReading) (x : Rat), w.speed = JsNum.num x →
      ((15 < x → classifyWind (some w) = "windy") ∧
       (x ≤ 15 → 8 < x → classifyWind (some w) = "moderate") ∧
       (x ≤ 8 → classifyWind (some w) = "calm")) := by
  refine ⟨rfl, ?_⟩
  intro w x hx
  simp only [classifyWind, jsGtNum, hx]
  refine ⟨fun h15 => ?_, fun h15 h8 => ?_, fun h8 => ?_⟩
  · rw [if_pos (by simp [h15])]
  · rw [if_neg (by simp only [decide_eq_true_eq, not_lt]; exact h15),
      if_pos (by simp [h8])]
  · have hle : x ≤ 15 := le_trans h8 (by norm_num)
    rw [if_neg (by simp only [decide_eq_true_eq, not_lt]; exact hle),
      if_neg (by simp only [decide_eq_true_eq, not_lt]; exact h8)]

/-- Witness for C6 at the claim's concrete speeds 16, 9 and 3. -/
theorem classifyWind_thresholds_witness :
    classifyWind none = "unknown" ∧
    classifyWind (some { time := "t", speed := JsNum.num 16, direction := JsNum.num 190,
                         directionLabel := "S", gust := JsNum.num 18 }) = "windy" ∧
    classifyWind (some { time := "t", speed := JsNum.num 9, direction := JsNum.num 190,
                         directionLabel := "S", gust := JsNum.num 18 }) = "moderate" ∧
    classifyWind (some { time := "t", speed := JsNum.num 3, direction := JsNum.num 190,
                         directionLabel := "S", gust := JsNum.num 18 }) = "calm" :=
  ⟨classifyWind_thresholds.1,
   (classifyWind_thresholds.2 _ 16 rfl).1 (by norm_num),
   (classifyWind_thresholds.2 _ 9 rfl).2.1 (by norm_num) (by norm_num),
   (classifyWind_thresholds.2 _ 3 rfl).2.2 (by norm_num)⟩

/-- Claim C7: for the operations that require tide prediction data (the
tides and forecast handlers), an upstream response carrying an error
payload yields a structured error object with the upstream message and
the request's station id; the handlers are total functions, so no
exception crosses the boundary in this case. -/
theorem requiredTides_error_payload (sid : String) (data : TidesResponse) (e : UpstreamError)
    (h : data.error = some e) :
    tidesHandler sid data = TidesOutput.err e.message sid ∧
    ∀ days, forecastHandler sid days data = ForecastOutput.err e.message sid := by
  constructor
  · simp [tidesHandler, h]
  · intro days
    simp [forecastHandler, h]

/-- Witness for C7 on a concrete error payload. -/
theorem requiredTides_error_payload_witness :
    tidesHandler "9414290" { error := some { message := "No data" }, predictions := none }
      = TidesOutput.err "No data" "9414290" ∧
    forecastHandler "9414290" 3 { error := some { message := "No data" }, predictions := none }
      = ForecastOutput.err "No data" "9414290" :=
  ⟨(requiredTides_error_payload "9414290"
      { error := some { message := "No data" }, predictions := none }
      { message := "No data" } rfl).1,
   (requiredTides_error_payload "9414290"
      { error := some { message := "No data" }, predictions := none }
      { message := "No data" } rfl).2 3⟩

/-- Claim C8: in the conditions and report handlers a failed optional
wind or station fetch is replaced by the catch fallback (empty data /
empty stations) and the response still succeeds — the failed fetch is
interchangeable with its fallback value, and with both optional fetches
failed the output is still ok, with absent wind and the default station
name; only a failed required tide fetch makes the handler fail. -/
theorem optional_fetch_degrades (sid : String) (now : Nat) (td td2 : TidesResponse)
    (e e1 e2 : String) (wf : Except String WindResponse) (sf : Except String StationsResponse)
    (f2 : Except String TidesResponse) :
    (conditionsHandler sid (Except.ok td) (Except.error e1) sf
      = conditionsHandler sid (Except.ok td) (Except.ok { data := some [] }) sf) ∧
    (conditionsHandler sid (Except.ok td) wf (Except.error e2)
      = conditionsHandler sid (Except.ok td) wf (Except.ok { stations := some [] })) ∧
    (∃ out, conditionsHandler sid (Except.ok td) (Except.error e1) (Except.error e2)
        = Except.ok out ∧ out.wind = none ∧ out.station.name = "Unknown") ∧
    (conditionsHandler sid (Except.error e) wf sf = Except.error e) ∧
    (reportHandler sid now (Except.ok td) (Except.ok td2) (Except.error e1) sf
      = reportHandler sid now (Except.ok td) (Except.ok td2) (Except.ok { data := some [] }) sf) ∧
    (reportHandler sid now (Except.ok td) (Except.ok td2) wf (Except.error e2)
      = reportHandler sid now (Except.ok td) (Except.ok td2) wf
          (Except.ok { stations := some [] })) ∧
    (∃ out, reportHandler sid now (Except.ok td) (Except.ok td2) (Except.error e1)
          (Except.error e2)
        = Except.ok out ∧ out.currentWind = none ∧ out.station.name = "Unknown") ∧
    (reportHandler sid now (Except.error e) f2 wf sf = Except.error e) ∧
    (reportHandler sid now (Except.ok td) (Except.error e) wf sf = Except.error e) :=
  ⟨rfl, rfl, ⟨_, rfl, rfl, rfl⟩, rfl, rfl, rfl, ⟨_, rfl, rfl, rfl⟩, rfl, rfl⟩

/-- Witness for C8 at concrete inputs: with both optional fetches
failed, the conditions handler still succeeds with absent wind and the
default station name, and a failed tide fetch is fatal. -/
theorem optional_fetch_degrades_witness :
    (∃ out, conditionsHandler "9414290" (Except.ok { error := none, predictions := some [] })
        (Except.error "boom") (Except.error "boom")
      = Except.ok out ∧ out.wind = none ∧ out.station.name = "Unknown") ∧
    conditionsHandler "9414290" (Except.error "down") (Except.error "boom")
        (Except.error "boom") = Except.error "down" :=
  ⟨(optional_fetch_degrades "9414290" 0 { error := none, predictions := some [] }
      { error := none, predictions := some [] } "down" "boom" "boom"
      (Except.error "boom") (Except.error "boom")
      (Except.ok { error := none, predictions := some [] })).2.2.1,
   (optional_fetch_degrades "9414290" 0 { error := none, predictions := some [] }
      { error := none, predictions := some [] } "down" "boom" "boom"
      (Except.error "boom") (Except.error "boom")
      (Except.ok { error := none, predictions := some [] })).2.2.2.1⟩

/-- Claim C9 counterexample: the search schema does not validate the
result limit to be a positive integer — it accepts the negative limit
-5 and the non-integer limit 5/2. -/
theorem searchLimit_not_validated_cex :
    searchValidate "CA" (some (-5)) = some { state := "CA", limit := -5 } ∧
    ((-5 : Rat) < 0) ∧
    searchValidate "CA" (some (5 / 2)) = some { state := "CA", limit := 5 / 2 } :=
  ⟨rfl, by norm_num, rfl⟩

/-- Claim C9 amended: the search entrypoint validates that the US state
code is exactly 2 characters, and the result limit defaults to 20 when
omitted; the limit itself is not constrained (any number is accepted). -/
theorem searchValidate_amended (s : String) (lim : Option Rat) :
    (∀ r, searchValidate s lim = some r →
      r.state = s ∧ r.state.length = 2 ∧ r.limit = lim.getD 20) ∧
    (searchValidate s lim = none ↔ s.length ≠ 2) ∧
    (searchValidate s none = if s.length = 2 then some { state := s, limit := 20 } else none) := by
  refine ⟨?_, ?_, rfl⟩
  · intro r hr
    by_cases hs : s.length = 2
    · simp only [searchValidate, if_pos hs] at hr
      injection hr with hr2
      subst hr2
      exact ⟨rfl, hs, rfl⟩
    · simp [searchValidate, hs] at hr
  · by_cases hs : s.length = 2 <;> simp [searchValidate, hs]

/-- Witness for the amended C9: a 2-letter state with no limit passes
with the default 20; a longer state string is rejected. -/
theorem searchValidate_amended_witness :
    searchValidate "CA" none = some { state := "CA", limit := 20 } ∧
    searchValidate "California" (some 5) = none := by
  constructor
  · rw [(searchValidate_amended "CA" none).2.2]
    decide
  · exact ((searchValidate_amended "California" (some 5)).2.1).mpr (by decide)

/-- Claim C10: the date-bucketed grouping is a partition of the input:
the keys are the first-occurrence deduplication of the input's date
keys (hence appear in order of first occurrence, without duplicates),
the concatenation of all buckets is a permutation of the input (so the
total count equals the input length and every element keeps its
multiplicity), and every input prediction lies in exactly one bucket. -/
theorem bucketByDate_partition (l : List TidePrediction) :
    ((bucketByDate l).map Prod.fst = dedupKeepFirst (l.map tideKey)) ∧
    ((bucketByDate l).map Prod.fst).Nodup ∧
    (((bucketByDate l).map Prod.snd).flatten).Perm l ∧
    (((bucketByDate l).map Prod.snd).flatten.length = l.length) ∧
    (∀ t ∈ l, ((bucketByDate l).map Prod.snd).flatten.count t = l.count t) ∧
    (∀ t ∈ l, (bucketByDate l).countP (fun p => decide (t ∈ p.2)) = 1) := by
  have hkeys : (bucketByDate l).map Prod.fst = dedupKeepFirst (l.map tideKey) := by
    rw [bucketByDate_eq_spec, bucketSpec, List.map_map]
    have hcomp : (Prod.fst ∘ fun k => (k, l.filter (fun t => tideKey t == k))) = id := rfl
    rw [hcomp, List.map_id]
  have hperm := bucketByDate_flatten_perm l
  exact ⟨hkeys, by rw [hkeys]; exact nodup_dedupKeepFirst _, hperm, hperm.length_eq,
    fun t _ => hperm.count_eq t, fun t ht => buckets_containing_eq_one l t ht⟩

/-- Witness for C10 on the three-record example: multiplicities are
preserved across the flattened buckets and the first record lies in
exactly one bucket. -/
theorem bucketByDate_partition_witness :
    ((bucketByDate demoTides).map Prod.snd).flatten.count demoT1 = demoTides.count demoT1 ∧
    (bucketByDate demoTides).countP (fun p => decide (demoT1 ∈ p.2)) = 1 :=
  ⟨(bucketByDate_partition demoTides).2.2.2.2.1 demoT1 (by decide),
   (bucketByDate_partition demoTides).2.2.2.2.2 demoT1 (by decide)⟩

end TideTracker
